import Mathlib

/-!
# Verification of the Kraken request-signing script

A shallow embedding, in Lean 4, of `kraken-test.py`: the request orchestration
(`request`), the nonce generator (`get_nonce`), the message builder
(`get_signature`) and the signer (`sign`), together with executable models of
the standard-library facilities the script calls: UTF-8 encoding, SHA-256,
SHA-512, HMAC, base64 encoding/decoding, `json.dumps` and
`urllib.parse.urlencode`.

Bytes are `Nat` values below 256; byte strings are `List Nat`.  Machine words
are `Nat` reduced modulo `2^32` (SHA-256) or `2^64` (SHA-512).  Python
exceptions that the script can raise before its network call are modelled by
`PyError`: `typeError` for the `TypeError` raised by `int + str`, and
`invalidCredential` for the `binascii.Error` raised by `base64.b64decode` on a
key that fails to decode (the specification's `InvalidCredentialError`).
The wall clock read by `time.time()` is passed in explicitly as `now_ms`,
the value of `int(time.time() * 1000)`.
-/

namespace Crypton

/-! ## Bytes and words -/

/-- Truncate to a 32-bit word, as Python's SHA-256 arithmetic does mod `2^32`. -/
def w32 (n : Nat) : Nat := n % 4294967296

/-- Truncate to a 64-bit word (mod `2^64`). -/
def w64 (n : Nat) : Nat := n % 18446744073709551616

/-- Right rotation of a 32-bit word by `r` bits. -/
def rotr32 (x r : Nat) : Nat := w32 ((x >>> r) ||| (x <<< (32 - r)))

/-- Right rotation of a 64-bit word by `r` bits. -/
def rotr64 (x r : Nat) : Nat := w64 ((x >>> r) ||| (x <<< (64 - r)))

/-- The `n` big-endian bytes of the value `v` (most significant first). -/
def toBytesBE (n v : Nat) : List Nat :=
  (List.range n).map fun i => v / 256 ^ (n - 1 - i) % 256

/-- Read a big-endian byte list as one number. -/
def beWord (bs : List Nat) : Nat := bs.foldl (fun a b => 256 * a + b) 0

/-- Split a list into consecutive chunks of `n` elements (last may be short).
`fuel` bounds the recursion; callers pass the list's length, which suffices
whenever `0 < n`. -/
def chunksAux (n : Nat) : Nat → List α → List (List α)
  | 0, _ => []
  | _, [] => []
  | fuel + 1, l => l.take n :: chunksAux n fuel (l.drop n)

/-- Split a list into consecutive chunks of `n` elements. -/
def chunks (n : Nat) (l : List α) : List (List α) := chunksAux n l.length l

/-! ## UTF-8 encoding (Python `str.encode()`) -/

/-- The UTF-8 bytes of one Unicode scalar value. -/
def utf8Char (c : Char) : List Nat :=
  let n := c.toNat
  if n < 128 then [n]
  else if n < 2048 then [192 ||| (n >>> 6), 128 ||| (n &&& 63)]
  else if n < 65536 then
    [224 ||| (n >>> 12), 128 ||| ((n >>> 6) &&& 63), 128 ||| (n &&& 63)]
  else
    [240 ||| (n >>> 18), 128 ||| ((n >>> 12) &&& 63),
     128 ||| ((n >>> 6) &&& 63), 128 ||| (n &&& 63)]

/-- Python `s.encode()`: the UTF-8 bytes of a string. -/
def utf8Encode (s : String) : List Nat := s.data.flatMap utf8Char

/-! ## SHA-256 (`hashlib.sha256`) -/

/-- The eight working variables of a SHA-2 compression state. -/
structure Hash8 where
  a : Nat
  b : Nat
  c : Nat
  d : Nat
  e : Nat
  f : Nat
  g : Nat
  h : Nat
deriving DecidableEq, Repr

/-- SHA-256 round constants (FIPS 180-4). -/
def K256 : List Nat :=
  [1116352408, 1899447441, 3049323471, 3921009573,
   961987163, 1508970993, 2453635748, 2870763221,
   3624381080, 310598401, 607225278, 1426881987,
   1925078388, 2162078206, 2614888103, 3248222580,
   3835390401, 4022224774, 264347078, 604807628,
   770255983, 1249150122, 1555081692, 1996064986,
   2554220882, 2821834349, 2952996808, 3210313671,
   3336571891, 3584528711, 113926993, 338241895,
   666307205, 773529912, 1294757372, 1396182291,
   1695183700, 1986661051, 2177026350, 2456956037,
   2730485921, 2820302411, 3259730800, 3345764771,
   3516065817, 3600352804, 4094571909, 275423344,
   430227734, 506948616, 659060556, 883997877,
   958139571, 1322822218, 1537002063, 1747873779,
   1955562222, 2024104815, 2227730452, 2361852424,
   2428436474, 2756734187, 3204031479, 3329325298]

/-- SHA-256 initial hash value. -/
def sha256Init : Hash8 :=
  ⟨1779033703, 3144134277, 1013904242, 2773480762,
   1359893119, 2600822924, 528734635, 1541459225⟩

/-- Message-schedule extension: from the 16 block words to all 64. -/
def sha256Schedule (ws : List Nat) : List Nat :=
  (List.range 48).foldl
    (fun w i =>
      let t := i + 16
      let x15 := w.getD (t - 15) 0
      let x2 := w.getD (t - 2) 0
      let s0 := rotr32 x15 7 ^^^ rotr32 x15 18 ^^^ (x15 >>> 3)
      let s1 := rotr32 x2 17 ^^^ rotr32 x2 19 ^^^ (x2 >>> 10)
      w ++ [w32 (w.getD (t - 16) 0 + s0 + w.getD (t - 7) 0 + s1)])
    ws

/-- One SHA-256 round, consuming a schedule word paired with its constant. -/
def sha256Round (st : Hash8) (wk : Nat × Nat) : Hash8 :=
  let S1 := rotr32 st.e 6 ^^^ rotr32 st.e 11 ^^^ rotr32 st.e 25
  let ch := (st.e &&& st.f) ^^^ ((st.e ^^^ 4294967295) &&& st.g)
  let temp1 := w32 (st.h + S1 + ch + wk.2 + wk.1)
  let S0 := rotr32 st.a 2 ^^^ rotr32 st.a 13 ^^^ rotr32 st.a 22
  let maj := (st.a &&& st.b) ^^^ (st.a &&& st.c) ^^^ (st.b &&& st.c)
  let temp2 := w32 (S0 + maj)
  ⟨w32 (temp1 + temp2), st.a, st.b, st.c, w32 (st.d + temp1), st.e, st.f, st.g⟩

/-- SHA-256 compression of one 16-word block into the running state. -/
def sha256Compress (st : Hash8) (block : List Nat) : Hash8 :=
  let W := sha256Schedule block
  let t := (W.zip K256).foldl sha256Round st
  ⟨w32 (st.a + t.a), w32 (st.b + t.b), w32 (st.c + t.c), w32 (st.d + t.d),
   w32 (st.e + t.e), w32 (st.f + t.f), w32 (st.g + t.g), w32 (st.h + t.h)⟩

/-- SHA-256 padding: append `0x80`, zeros to 56 mod 64, then the 8-byte
big-endian bit length. -/
def sha256Pad (msg : List Nat) : List Nat :=
  let l := msg.length
  msg ++ [128] ++ List.replicate ((119 - l % 64) % 64) 0 ++ toBytesBE 8 (8 * l)

/-- `hashlib.sha256(msg).digest()`: the 32-byte SHA-256 digest. -/
def sha256Bytes (msg : List Nat) : List Nat :=
  let blocks := (chunks 64 (sha256Pad msg)).map fun b => (chunks 4 b).map beWord
  let st := blocks.foldl sha256Compress sha256Init
  toBytesBE 4 st.a ++ toBytesBE 4 st.b ++ toBytesBE 4 st.c ++ toBytesBE 4 st.d ++
  toBytesBE 4 st.e ++ toBytesBE 4 st.f ++ toBytesBE 4 st.g ++ toBytesBE 4 st.h

/-! ## SHA-512 (`hashlib.sha512`) -/

/-- SHA-512 round constants (FIPS 180-4). -/
def K512 : List Nat :=
  [4794697086780616226, 8158064640168781261, 13096744586834688815,
   16840607885511220156, 4131703408338449720, 6480981068601479193,
   10538285296894168987, 12329834152419229976, 15566598209576043074,
   1334009975649890238, 2608012711638119052, 6128411473006802146,
   8268148722764581231, 9286055187155687089, 11230858885718282805,
   13951009754708518548, 16472876342353939154, 17275323862435702243,
   1135362057144423861, 2597628984639134821, 3308224258029322869,
   5365058923640841347, 6679025012923562964, 8573033837759648693,
   10970295158949994411, 12119686244451234320, 12683024718118986047,
   13788192230050041572, 14330467153632333762, 15395433587784984357,
   489312712824947311, 1452737877330783856, 2861767655752347644,
   3322285676063803686, 5560940570517711597, 5996557281743188959,
   7280758554555802590, 8532644243296465576, 9350256976987008742,
   10552545826968843579, 11727347734174303076, 12113106623233404929,
   14000437183269869457, 14369950271660146224, 15101387698204529176,
   15463397548674623760, 17586052441742319658, 1182934255886127544,
   1847814050463011016, 2177327727835720531, 2830643537854262169,
   3796741975233480872, 4115178125766777443, 5681478168544905931,
   6601373596472566643, 7507060721942968483, 8399075790359081724,
   8693463985226723168, 9568029438360202098, 10144078919501101548,
   10430055236837252648, 11840083180663258601, 13761210420658862357,
   14299343276471374635, 14566680578165727644, 15097957966210449927,
   16922976911328602910, 17689382322260857208, 500013540394364858,
   748580250866718886, 1242879168328830382, 1977374033974150939,
   2944078676154940804, 3659926193048069267, 4368137639120453308,
   4836135668995329356, 5532061633213252278, 6448918945643986474,
   6902733635092675308, 7801388544844847127]

/-- SHA-512 initial hash value. -/
def sha512Init : Hash8 :=
  ⟨7640891576956012808, 13503953896175478587, 4354685564936845355,
   11912009170470909681, 5840696475078001361, 11170449401992604703,
   2270897969802886507, 6620516959819538809⟩

/-- Message-schedule extension: from the 16 block words to all 80. -/
def sha512Schedule (ws : List Nat) : List Nat :=
  (List.range 64).foldl
    (fun w i =>
      let t := i + 16
      let x15 := w.getD (t - 15) 0
      let x2 := w.getD (t - 2) 0
      let s0 := rotr64 x15 1 ^^^ rotr64 x15 8 ^^^ (x15 >>> 7)
      let s1 := rotr64 x2 19 ^^^ rotr64 x2 61 ^^^ (x2 >>> 6)
      w ++ [w64 (w.getD (t - 16) 0 + s0 + w.getD (t - 7) 0 + s1)])
    ws

/-- One SHA-512 round, consuming a schedule word paired with its constant. -/
def sha512Round (st : Hash8) (wk : Nat × Nat) : Hash8 :=
  let S1 := rotr64 st.e 14 ^^^ rotr64 st.e 18 ^^^ rotr64 st.e 41
  let ch := (st.e &&& st.f) ^^^ ((st.e ^^^ 18446744073709551615) &&& st.g)
  let temp1 := w64 (st.h + S1 + ch + wk.2 + wk.1)
  let S0 := rotr64 st.a 28 ^^^ rotr64 st.a 34 ^^^ rotr64 st.a 39
  let maj := (st.a &&& st.b) ^^^ (st.a &&& st.c) ^^^ (st.b &&& st.c)
  let temp2 := w64 (S0 + maj)
  ⟨w64 (temp1 + temp2), st.a, st.b, st.c, w64 (st.d + temp1), st.e, st.f, st.g⟩

/-- SHA-512 compression of one 16-word block into the running state. -/
def sha512Compress (st : Hash8) (block : List Nat) : Hash8 :=
  let W := sha512Schedule block
  let t := (W.zip K512).foldl sha512Round st
  ⟨w64 (st.a + t.a), w64 (st.b + t.b), w64 (st.c + t.c), w64 (st.d + t.d),
   w64 (st.e + t.e), w64 (st.f + t.f), w64 (st.g + t.g), w64 (st.h + t.h)⟩

/-- SHA-512 padding: append `0x80`, zeros to 112 mod 128, then the 16-byte
big-endian bit length. -/
def sha512Pad (msg : List Nat) : List Nat :=
  let l := msg.length
  msg ++ [128] ++ List.replicate ((239 - l % 128) % 128) 0 ++ toBytesBE 16 (8 * l)

/-- `hashlib.sha512(msg).digest()`: the 64-byte SHA-512 digest. -/
def sha512Bytes (msg : List Nat) : List Nat :=
  let blocks := (chunks 128 (sha512Pad msg)).map fun b => (chunks 8 b).map beWord
  let st := blocks.foldl sha512Compress sha512Init
  toBytesBE 8 st.a ++ toBytesBE 8 st.b ++ toBytesBE 8 st.c ++ toBytesBE 8 st.d ++
  toBytesBE 8 st.e ++ toBytesBE 8 st.f ++ toBytesBE 8 st.g ++ toBytesBE 8 st.h

/-! ## HMAC (`hmac.new(key, msg, digestmod=hashlib.sha512)`) -/

/-- HMAC-SHA512 (RFC 2104, block size 128): `H((k ⊕ opad) ‖ H((k ⊕ ipad) ‖ m))`. -/
def hmacSha512 (key msg : List Nat) : List Nat :=
  let k0 := if 128 < key.length then sha512Bytes key else key
  let k1 := k0 ++ List.replicate (128 - k0.length) 0
  let ipad := k1.map (· ^^^ 54)
  let opad := k1.map (· ^^^ 92)
  sha512Bytes (opad ++ sha512Bytes (ipad ++ msg))

/-! ## Base64 (`base64.b64encode` / `base64.b64decode`) -/

/-- The base64 alphabet, index order. -/
def b64Alphabet : List Char :=
  "ABCDEFGHIJKLMNOPQRSTUVWXYZabcdefghijklmnopqrstuvwxyz0123456789+/".data

/-- The 6-bit value of `c` when `c` is in the base64 alphabet. -/
def b64Index (c : Char) : Option Nat := b64Alphabet.findIdx? (· == c)

/-- The alphabet character for a 6-bit value. -/
def b64Char (n : Nat) : Char := b64Alphabet.getD n 'A'

/-- Encode a group of at most three bytes into four base64 characters. -/
def b64encodeChunk : List Nat → List Char
  | [a, b, c] =>
    [b64Char (a / 4), b64Char (a % 4 * 16 + b / 16),
     b64Char (b % 16 * 4 + c / 64), b64Char (c % 64)]
  | [a, b] =>
    [b64Char (a / 4), b64Char (a % 4 * 16 + b / 16), b64Char (b % 16 * 4), '=']
  | [a] => [b64Char (a / 4), b64Char (a % 4 * 16), '=', '=']
  | _ => []

/-- `base64.b64encode(bs).decode()`: the base64 text of a byte string. -/
def b64encode (bs : List Nat) : String := ⟨(chunks 3 bs).flatMap b64encodeChunk⟩

/-- Decoder state of CPython's `binascii.a2b_base64`: the bytes emitted so
far, the position inside the current quad (0–3), the pending left-over bits,
the run of padding characters seen at quad position ≥ 2, and whether a
completed pad sequence already ended the decode. -/
structure B64State where
  out : List Nat
  quad : Nat
  left : Nat
  padRun : Nat
  finished : Bool

/-- One input character of CPython's non-strict `a2b_base64` loop: a `=` at
quad position ≥ 2 counts toward completing the quad (one suffices at
position 3, two at position 2) and ends the decode, a `=` elsewhere is
ignored, characters outside the alphabet are skipped, and a data character —
also after an ignored `=` — keeps accumulating, emitting a byte at each of
the last three quad positions and resetting the padding run. -/
def b64Step (st : B64State) (c : Char) : B64State :=
  if st.finished then st
  else if c = '=' then
    if 2 ≤ st.quad ∧ 4 ≤ st.quad + (st.padRun + 1) then { st with finished := true }
    else if 2 ≤ st.quad then { st with padRun := st.padRun + 1 }
    else st
  else
    match b64Index c with
    | none => st
    | some v =>
      match st.quad with
      | 0 => ⟨st.out, 1, v, 0, st.finished⟩
      | 1 => ⟨st.out ++ [st.left * 4 + v / 16], 2, v % 16, 0, st.finished⟩
      | 2 => ⟨st.out ++ [st.left * 16 + v / 4], 3, v % 4, 0, st.finished⟩
      | _ => ⟨st.out ++ [st.left * 64 + v], 0, 0, 0, st.finished⟩

/-- `base64.b64decode(s)` on a `str`, default non-strict mode: the argument
is first ASCII-encoded (non-ASCII raises `ValueError`), then fed through the
`a2b_base64` loop; unless a pad sequence ended the decode, a trailing
partial quad raises `binascii.Error`. `none` models both failures — the
decode step failing, the specification's `InvalidCredentialError`. -/
def b64decode (s : String) : Option (List Nat) :=
  if s.data.all (fun c => c.toNat < 128) then
    let st := s.data.foldl b64Step ⟨[], 0, 0, 0, false⟩
    if st.finished || st.quad == 0 then some st.out else none
  else none

/-! ## Python values, decimal rendering, `json.dumps`, `urlencode` -/

/-- The JSON-able Python values the script's request bodies carry: strings and
integers (the spec's nonce field is "integer or numeric string"). -/
inductive PyVal where
  | str : String → PyVal
  | int : Int → PyVal
deriving DecidableEq, Repr

/-- A request body: a Python dict as an insertion-ordered association list. -/
abbrev Body := List (String × PyVal)

/-- The character of a decimal digit. -/
def digitChar : Nat → Char
  | 0 => '0' | 1 => '1' | 2 => '2' | 3 => '3' | 4 => '4'
  | 5 => '5' | 6 => '6' | 7 => '7' | 8 => '8' | 9 => '9'
  | _ => '*'

/-- Decimal digits of a natural number, most significant first. -/
def decDigits (n : Nat) : List Char :=
  if h : n < 10 then [digitChar n]
  else decDigits (n / 10) ++ [digitChar (n % 10)]
termination_by n
decreasing_by exact Nat.div_lt_self (by omega) (by omega)

/-- Python `str` on a natural number. -/
def pyStrNat (n : Nat) : String := ⟨decDigits n⟩

/-- Python `str` on an integer. -/
def pyStrInt (n : Int) : String :=
  if n < 0 then "-" ++ pyStrNat n.natAbs else pyStrNat n.natAbs

/-- The decimal integer a digit string denotes (how the exchange reads a
nonce for its ordering check). -/
def decValue (s : String) : Nat :=
  s.data.foldl (fun a c => 10 * a + (c.toNat - 48)) 0

/-- An uppercase hexadecimal digit. -/
def hexDigitU (n : Nat) : Char := "0123456789ABCDEF".data.getD n '0'

/-- Four lowercase hexadecimal digits, as in `json.dumps` `\uXXXX` escapes. -/
def hex4 (n : Nat) : List Char :=
  ["0123456789abcdef".data.getD (n / 4096 % 16) '0',
   "0123456789abcdef".data.getD (n / 256 % 16) '0',
   "0123456789abcdef".data.getD (n / 16 % 16) '0',
   "0123456789abcdef".data.getD (n % 16) '0']

/-- One character of a JSON string, with `json.dumps` default escaping
(`ensure_ascii=True`). -/
def jsonEscapeChar (c : Char) : List Char :=
  if c = '"' then ['\\', '"']
  else if c = '\\' then ['\\', '\\']
  else if c = '\n' then ['\\', 'n']
  else if c = '\t' then ['\\', 't']
  else if c = '\r' then ['\\', 'r']
  else if c = '\x08' then ['\\', 'b']
  else if c = '\x0c' then ['\\', 'f']
  else if c.toNat < 32 then '\\' :: 'u' :: hex4 c.toNat
  else if c.toNat < 127 then [c]
  else if c.toNat < 65536 then '\\' :: 'u' :: hex4 c.toNat
  else
    '\\' :: 'u' :: hex4 (55296 + (c.toNat - 65536) / 1024) ++
    '\\' :: 'u' :: hex4 (56320 + (c.toNat - 65536) % 1024)

/-- A JSON string literal for `s`. -/
def jsonString (s : String) : List Char :=
  '"' :: s.data.flatMap jsonEscapeChar ++ ['"']

/-- One JSON value. -/
def jsonVal : PyVal → List Char
  | .str s => jsonString s
  | .int n => (pyStrInt n).data

/-- `json.dumps` on a dict of strings/ints, default separators `", "`, `": "`. -/
def jsonDumps (b : Body) : String :=
  ⟨'\x7b' :: List.intercalate [',', ' ']
      (b.map fun kv => jsonString kv.1 ++ ':' :: ' ' :: jsonVal kv.2) ++ ['\x7d']⟩

/-- `urllib.parse.quote_plus` on one character: letters, digits and `_.-~`
pass through, space becomes `+`, everything else percent-encodes its UTF-8
bytes with uppercase hex. -/
def quotePlusChar (c : Char) : List Char :=
  if c.isAlphanum || c == '_' || c == '.' || c == '-' || c == '~' then [c]
  else if c = ' ' then ['+']
  else (utf8Char c).flatMap fun b => ['%', hexDigitU (b / 16), hexDigitU (b % 16)]

/-- `urllib.parse.quote_plus` on a string. -/
def quotePlus (s : String) : String := ⟨s.data.flatMap quotePlusChar⟩

/-- `urllib.parse.urlencode` on a dict of strings. -/
def urlencode (q : List (String × String)) : String :=
  String.intercalate "&" (q.map fun kv => quotePlus kv.1 ++ "=" ++ quotePlus kv.2)

/-! ## The script's functions -/

/-- The exceptions the script can raise while building a request, before its
network call: `typeError` models the `TypeError` of `int + str` in
`get_signature`; `invalidCredential` models the `binascii.Error` that
`base64.b64decode` raises on a key that fails to decode — the specification's
`InvalidCredentialError`. -/
inductive PyError where
  | typeError
  | invalidCredential
deriving DecidableEq, Repr

/-- Python `nonce + data` where `nonce` came untouched out of the body dict:
string concatenation when it is a `str`, a `TypeError` when it is an `int`. -/
def pyAddStr : PyVal → String → Except PyError String
  | .str s, t => .ok (s ++ t)
  | .int _, _ => .error .typeError

/-- `get_nonce`: `str(int(time.time() * 1000))`, with the clock reading
`int(time.time() * 1000)` passed in as `now_ms`. -/
def get_nonce (now_ms : Nat) : String := pyStrNat now_ms

/-- `sign`: base64 of the HMAC-SHA512 of the message under the base64-decoded
private key; decoding failure is the `invalidCredential` error. -/
def sign (private_key : String) (message : List Nat) : Except PyError String :=
  match b64decode private_key with
  | none => .error .invalidCredential
  | some key => .ok (b64encode (hmacSha512 key message))

/-- `get_signature`: signs `path.encode() + sha256((nonce + data).encode()).digest()`.
The `nonce` parameter carries whatever value sat in the body dict, so the
`nonce + data` concatenation can raise before anything is hashed or signed. -/
def get_signature (private_key : String) (data : String) (nonce : PyVal)
    (path : String) : Except PyError String :=
  match pyAddStr nonce data with
  | .error e => .error e
  | .ok nd => sign private_key (utf8Encode path ++ sha256Bytes (utf8Encode nd))

/-- Lines 46–51 of `request`: take the body's `nonce` if the key is present,
otherwise generate one and write it into the body. Returns the nonce value,
the resulting body, and whether the generator was consumed. -/
def selectNonce (body : Option Body) (gen : String) : PyVal × Body × Bool :=
  let b := body.getD []
  match List.lookup "nonce" b with
  | some v => (v, b, false)
  | none => (.str gen, b ++ [("nonce", .str gen)], true)

/-- Equality of `Except` values is decidable when it is on both sides. -/
instance instDecEqExcept [DecidableEq ε] [DecidableEq α] :
    DecidableEq (Except ε α) := fun x y =>
  match x, y with
  | .error a, .error b =>
    if h : a = b then .isTrue (by rw [h])
    else .isFalse (by intro hc; cases hc; exact h rfl)
  | .error _, .ok _ => .isFalse (by intro hc; cases hc)
  | .ok _, .error _ => .isFalse (by intro hc; cases hc)
  | .ok a, .ok b =>
    if h : a = b then .isTrue (by rw [h])
    else .isFalse (by intro hc; cases hc; exact h rfl)

/-- The outbound HTTP request handed to `urllib.request.urlopen`. -/
structure SentRequest where
  method : String
  url : String
  data : List Nat
  headers : List (String × String)
deriving DecidableEq, Repr

/-- Everything observable about one call to `request`: the URL and query
string it builds, the nonce value and final body dict after the nonce step,
the serialized body, whether `get_nonce` was consumed, and either the request
passed to `urlopen` or the exception raised before any network call. -/
structure ReqTrace where
  url : String
  query_str : String
  nonce : PyVal
  finalBody : Option Body
  body_str : String
  usedGen : Bool
  result : Except PyError SentRequest
deriving DecidableEq, Repr

/-- `request`: the script's request builder. `now_ms` is the clock reading
`get_nonce` would use; the HTTP send itself is out of scope, so a successful
trace ends with the `SentRequest` given to `urlopen` and a failing trace ends
with the exception raised before the network call. -/
def request (method : String) (path : String)
    (query : Option (List (String × String))) (body : Option Body)
    (public_key : String) (private_key : String) (environment : String)
    (now_ms : Nat) : ReqTrace :=
  let url := environment ++ path
  let query_str := match query with
    | some q => if 0 < q.length then urlencode q else ""
    | none => ""
  let url := match query with
    | some q => if 0 < q.length then url ++ "?" ++ query_str else url
    | none => url
  let nb : PyVal × Option Body × Bool :=
    if 0 < public_key.length then
      let s := selectNonce body (get_nonce now_ms)
      (s.1, some s.2.1, s.2.2)
    else (.str "", body, false)
  let nonce := nb.1
  let body := nb.2.1
  let usedGen := nb.2.2
  let body_str := match body with
    | some b => if 0 < b.length then jsonDumps b else ""
    | none => ""
  let headers0 : List (String × String) := match body with
    | some b => if 0 < b.length then [("Content-Type", "application/json")] else []
    | none => []
  let result : Except PyError SentRequest :=
    if 0 < public_key.length then
      match get_signature private_key (query_str ++ body_str) nonce path with
      | .error e => .error e
      | .ok sig =>
        .ok ⟨method, url, utf8Encode body_str,
             headers0 ++ [("API-Key", public_key), ("API-Sign", sig)]⟩
    else .ok ⟨method, url, utf8Encode body_str, headers0⟩
  ⟨url, query_str, nonce, body, body_str, usedGen, result⟩

/-- Whether a call to `request` reached the network: `urlopen` runs exactly
when no exception interrupted the build. -/
def httpIssued (t : ReqTrace) : Bool := t.result.toOption.isSome

/-- The headers of the request handed to `urlopen`; empty when the build
raised before the network call. -/
def headersOf (t : ReqTrace) : List (String × String) :=
  match t.result with
  | .ok s => s.headers
  | .error _ => []

/-- The `body is not None and len(body) > 0` test of line 53: a body is
present when the dict (after any nonce merging) is non-None and non-empty. -/
def bodyPresent : Option Body → Bool
  | some b => decide (0 < b.length)
  | none => false

/-- The body's `nonce` entry, if any, is a string (so the `int + str`
`TypeError` of `get_signature` cannot fire). -/
def nonceIsStringOrAbsent (body : Option Body) : Bool :=
  match List.lookup "nonce" (body.getD []) with
  | some (.int _) => false
  | _ => true

/-! ## Basic facts about the embedding -/

/-- UTF-8 encoding distributes over string concatenation. -/
theorem utf8Encode_append (s t : String) :
    utf8Encode (s ++ t) = utf8Encode s ++ utf8Encode t := by
  simp [utf8Encode, String.data_append]

/-- `toBytesBE n v` has exactly `n` bytes. -/
theorem length_toBytesBE (n v : Nat) : (toBytesBE n v).length = n := by
  simp [toBytesBE]

/-- A SHA-256 digest is exactly 32 bytes. -/
theorem length_sha256Bytes (m : List Nat) : (sha256Bytes m).length = 32 := by
  simp [sha256Bytes, length_toBytesBE]

/-- A SHA-512 digest is exactly 64 bytes. -/
theorem length_sha512Bytes (m : List Nat) : (sha512Bytes m).length = 64 := by
  simp [sha512Bytes, length_toBytesBE]

/-- An HMAC-SHA512 raw digest is exactly 64 bytes. -/
theorem length_hmacSha512 (k m : List Nat) : (hmacSha512 k m).length = 64 := by
  simp [hmacSha512, length_sha512Bytes]

/-- The numeric value of a decimal digit character. -/
theorem digitChar_toNat (d : Nat) (h : d < 10) : (digitChar d).toNat - 48 = d := by
  interval_cases d <;> decide

/-- Folding the decimal-value step over the digits of `n` recovers `n` on top
of the shifted accumulator. -/
theorem decDigits_foldl (n : Nat) : ∀ a : Nat,
    (decDigits n).foldl (fun x c => 10 * x + (c.toNat - 48)) a
      = a * 10 ^ (decDigits n).length + n := by
  induction n using Nat.strong_induction_on with
  | _ n ih =>
    intro a
    rw [decDigits]
    by_cases h : n < 10
    · simp [h, digitChar_toNat n h]; ring
    · have hd : n / 10 < n := Nat.div_lt_self (by omega) (by omega)
      simp only [h, dite_false, List.foldl_append, List.length_append,
        List.foldl_cons, List.foldl_nil, List.length_cons, List.length_nil]
      rw [ih (n / 10) hd a, digitChar_toNat (n % 10) (Nat.mod_lt n (by omega))]
      have : 10 * (n / 10) + n % 10 = n := Nat.div_add_mod n 10
      ring_nf
      omega

/-- Rendering a natural number in decimal and reading it back is the
identity: the nonce string denotes exactly the clock value. -/
theorem decValue_pyStrNat (n : Nat) : decValue (pyStrNat n) = n := by
  have := decDigits_foldl n 0
  simpa [decValue, pyStrNat] using this

/-- Appending a `"nonce"` entry does not change the lookup of any other key. -/
theorem lookup_append_nonce (k : String) (b : Body) (v : PyVal)
    (hk : k ≠ "nonce") :
    List.lookup k (b ++ [("nonce", v)]) = List.lookup k b := by
  induction b with
  | nil => simp [List.lookup, beq_eq_false_iff_ne.mpr hk]
  | cons kv tl ih =>
    by_cases hkk : k == kv.1
    · simp [List.lookup, hkk]
    · simp only [List.cons_append, List.lookup, hkk]
      exact ih

/-- When `sign` cannot base64-decode the key, `get_signature` on a string
nonce surfaces exactly the credential error. -/
theorem get_signature_invalid (sk d s p : String) (hdec : b64decode sk = none) :
    get_signature sk d (.str s) p = .error .invalidCredential := by
  simp [get_signature, pyAddStr, sign, hdec]

/-! ## Claims -/

/-- C1: for every path, nonce, query string and body string, the message
handed to the signer is the UTF-8 bytes of the path followed by the raw
32-byte SHA-256 digest of the UTF-8 bytes of the nonce concatenated, without
separator, with the payload (query string ++ JSON body string); in particular
at path `/0/private/Balance`, nonce `1616492376594` and empty payload the
message is `b"/0/private/Balance" + SHA256(b"1616492376594")`. -/
theorem C1_message_to_signer (pk path nonce qs bs : String) :
    get_signature pk (qs ++ bs) (.str nonce) path
      = sign pk (utf8Encode path ++
          sha256Bytes (utf8Encode nonce ++ (utf8Encode qs ++ utf8Encode bs))) ∧
    (sha256Bytes (utf8Encode nonce ++ (utf8Encode qs ++ utf8Encode bs))).length = 32 ∧
    get_signature pk "" (.str "1616492376594") "/0/private/Balance"
      = sign pk (utf8Encode "/0/private/Balance" ++
          sha256Bytes (utf8Encode "1616492376594")) := by
  refine ⟨?_, length_sha256Bytes _, ?_⟩
  · simp [get_signature, pyAddStr, utf8Encode_append]
  · simp [get_signature, pyAddStr]

/-- C2: for every private key that base64-decodes and every message,
`sign` returns the base64 encoding of the HMAC digest computed with SHA-512
under the decoded key over the message, and that raw digest is exactly
64 bytes long. -/
theorem C2_sign_hmac_base64 (pk : String) (msg k : List Nat)
    (h : b64decode pk = some k) :
    sign pk msg = .ok (b64encode (hmacSha512 k msg)) ∧
    (hmacSha512 k msg).length = 64 :=
  ⟨by simp [sign, h], length_hmacSha512 k msg⟩

/-- Witness for C2 at the empty key (valid base64 decoding to no bytes) and
the empty message. -/
theorem C2_sign_hmac_base64_witness :
    sign "" [] = .ok (b64encode (hmacSha512 [] [])) ∧
    (hmacSha512 [] []).length = 64 :=
  C2_sign_hmac_base64 "" [] [] (by decide)

/-- C5 counterexample: the nonce generator `str(int(time.time() * 1000))` is
not strictly increasing across successive calls — two calls that read the
same millisecond (here both at clock value 1616492376594) return equal
nonces, so the second is not strictly greater as a decimal integer. -/
theorem C5_strict_increase_counterexample :
    ¬ ∀ t1 t2 : Nat, t1 ≤ t2 →
        decValue (get_nonce t1) < decValue (get_nonce t2) := fun h =>
  absurd (h 1616492376594 1616492376594 le_rfl) (lt_irrefl _)

/-- C5 amended: across successive calls the nonce is non-decreasing as a
decimal integer whenever the clock is non-decreasing, and strictly greater
exactly when the second call reads a strictly later millisecond. -/
theorem C5_nonce_monotone (t1 t2 : Nat) (h : t1 ≤ t2) :
    decValue (get_nonce t1) ≤ decValue (get_nonce t2) ∧
    (t1 < t2 → decValue (get_nonce t1) < decValue (get_nonce t2)) := by
  rw [get_nonce, get_nonce, decValue_pyStrNat, decValue_pyStrNat]
  exact ⟨h, fun hlt => hlt⟩

/-- Witness for C5 at clock readings one millisecond apart. -/
theorem C5_nonce_monotone_witness :
    decValue (get_nonce 1616492376594) < decValue (get_nonce 1616492376595) :=
  (C5_nonce_monotone 1616492376594 1616492376595 (by decide)).2 (by decide)

/-- C9: the message builder and signature computation are pure — two calls
to `get_signature` with identical private key, payload, nonce and path
produce identical output; no hidden state enters the result. -/
theorem C9_signature_deterministic (pk1 pk2 d1 d2 : String) (n1 n2 : PyVal)
    (p1 p2 : String) (h1 : pk1 = pk2) (h2 : d1 = d2) (h3 : n1 = n2)
    (h4 : p1 = p2) :
    get_signature pk1 d1 n1 p1 = get_signature pk2 d2 n2 p2 := by
  rw [h1, h2, h3, h4]

/-- Witness for C9: two textually separate calls on the script's own inputs
coincide. -/
theorem C9_signature_deterministic_witness :
    get_signature "bZI2" "" (.str "1616492376594") "/0/private/Balance"
      = get_signature "bZI2" "" (.str "1616492376594") "/0/private/Balance" :=
  C9_signature_deterministic "bZI2" "bZI2" "" "" (.str "1616492376594")
    (.str "1616492376594") "/0/private/Balance" "/0/private/Balance"
    rfl rfl rfl rfl

/-- C3 counterexample: an authenticated request whose private key `"a"` is
not valid base64 but whose body carries an integer nonce fails with the
`TypeError` of `int + str` — not with `InvalidCredentialError` — because the
message is built before the key is decoded. -/
theorem C3_invalid_key_counterexample :
    (request "POST" "/p" none (some [("nonce", PyVal.int 1)]) "PUB" "a" "e" 0).result
      = .error .typeError ∧
    (request "POST" "/p" none (some [("nonce", PyVal.int 1)]) "PUB" "a" "e" 0).result
      ≠ .error .invalidCredential := by decide

/-- C3 amended: for every authenticated request whose private key fails
base64 decoding and whose body nonce (if any) is a string — so the message
builder itself cannot raise first — signing fails with
`InvalidCredentialError`, and no network call is made. -/
theorem C3_invalid_key_fails_before_network (method path : String)
    (query : Option (List (String × String))) (body : Option Body)
    (pk sk env : String) (t : Nat) (hpk : 0 < pk.length)
    (hdec : b64decode sk = none) (hn : nonceIsStringOrAbsent body = true) :
    (request method path query body pk sk env t).result
      = .error .invalidCredential ∧
    httpIssued (request method path query body pk sk env t) = false := by
  have hres : (request method path query body pk sk env t).result
      = .error .invalidCredential := by
    cases hl : List.lookup "nonce" (body.getD []) with
    | none => simp [request, selectNonce, hl, hpk, get_signature_invalid _ _ _ _ hdec]
    | some v =>
      cases v with
      | str s => simp [request, selectNonce, hl, hpk, get_signature_invalid _ _ _ _ hdec]
      | int n => exfalso; simp [nonceIsStringOrAbsent, hl] at hn
  exact ⟨hres, by simp [httpIssued, hres, Except.toOption]⟩

/-- Witness for C3 at an authenticated request with no body and the
non-base64 key `"a"`. -/
theorem C3_invalid_key_fails_before_network_witness :
    (request "POST" "/p" none none "PUB" "a" "e" 7).result
      = .error .invalidCredential ∧
    httpIssued (request "POST" "/p" none none "PUB" "a" "e" 7) = false :=
  C3_invalid_key_fails_before_network "POST" "/p" none none "PUB" "a" "e" 7
    (by decide) (by decide) (by decide)

/-- C4: evaluating the code at the claim's own permitted input — the script's
keys with a caller-supplied integer nonce — the request is not built: the
`int + str` concatenation in `get_signature` raises a `TypeError` and no
network call is made, against the claim (and the interface contract) that an
integer nonce is accepted. -/
theorem C4_int_nonce_type_error :
    (request "POST" "/0/private/Balance" none
        (some [("nonce", PyVal.int 1616492376594)])
        "9UA5+IEHP68a8i7pwRRiahubuj14J/LIfs05vhupHyFbT7GWyFs9gXr1"
        "bZI23Z8QfS1PhQjm/hynRtZmCVv+IaITiU8f9pBwKOlcy1w14jDRkdOs9pe4wlYpPRXKHyVxCZX3z1wHrG2zOw=="
        "https://api.kraken.com" 1616492376594).result = .error .typeError ∧
    httpIssued (request "POST" "/0/private/Balance" none
        (some [("nonce", PyVal.int 1616492376594)])
        "9UA5+IEHP68a8i7pwRRiahubuj14J/LIfs05vhupHyFbT7GWyFs9gXr1"
        "bZI23Z8QfS1PhQjm/hynRtZmCVv+IaITiU8f9pBwKOlcy1w14jDRkdOs9pe4wlYpPRXKHyVxCZX3z1wHrG2zOw=="
        "https://api.kraken.com" 1616492376594) = false := by decide

/-- C6: with an empty `public_key`, no `API-Key` or `API-Sign` header is
attached, the nonce generator is not consumed, the caller's body is left
untouched, and the nonce variable keeps its initial empty-string value. -/
theorem C6_unauthenticated_frame (method path : String)
    (query : Option (List (String × String))) (body : Option Body)
    (sk env : String) (t : Nat) :
    List.lookup "API-Key" (headersOf (request method path query body "" sk env t)) = none ∧
    List.lookup "API-Sign" (headersOf (request method path query body "" sk env t)) = none ∧
    (request method path query body "" sk env t).usedGen = false ∧
    (request method path query body "" sk env t).finalBody = body ∧
    (request method path query body "" sk env t).nonce = .str "" := by
  refine ⟨?_, ?_, by simp [request], by simp [request], by simp [request]⟩ <;>
  · simp only [headersOf, request]
    cases body with
    | none => simp [List.lookup]
    | some b => by_cases hb : 0 < b.length <;> simp [hb, List.lookup]

/-- C7: on an authenticated request, a caller-supplied nonce value is the one
used for signing and the generator is not consumed; only when the body lacks
a `nonce` key is a fresh nonce generated, merged into the body, and that
merged body serialized. -/
theorem C7_nonce_precedence (method path : String)
    (query : Option (List (String × String))) (body : Body)
    (pk sk env : String) (t : Nat) (hpk : 0 < pk.length) :
    (∀ v, List.lookup "nonce" body = some v →
        (request method path query (some body) pk sk env t).nonce = v ∧
        (request method path query (some body) pk sk env t).usedGen = false ∧
        (request method path query (some body) pk sk env t).finalBody = some body) ∧
    (List.lookup "nonce" body = none →
        (request method path query (some body) pk sk env t).nonce
          = .str (get_nonce t) ∧
        (request method path query (some body) pk sk env t).usedGen = true ∧
        (request method path query (some body) pk sk env t).finalBody
          = some (body ++ [("nonce", .str (get_nonce t))]) ∧
        (request method path query (some body) pk sk env t).body_str
          = jsonDumps (body ++ [("nonce", .str (get_nonce t))])) := by
  constructor
  · intro v hl
    simp [request, selectNonce, hl, hpk]
  · intro hl
    have hlen : 0 < (body ++ [("nonce", PyVal.str (get_nonce t))]).length := by simp
    simp [request, selectNonce, hl, hpk, hlen]

/-- Witness for C7 at a body that already carries the string nonce `"42"`. -/
theorem C7_nonce_precedence_witness :
    (request "POST" "/p" none (some [("nonce", PyVal.str "42")]) "K" "s" "e" 5).nonce
      = PyVal.str "42" ∧
    (request "POST" "/p" none (some [("nonce", PyVal.str "42")]) "K" "s" "e" 5).usedGen
      = false ∧
    (request "POST" "/p" none (some [("nonce", PyVal.str "42")]) "K" "s" "e" 5).finalBody
      = some [("nonce", PyVal.str "42")] :=
  (C7_nonce_precedence "POST" "/p" none [("nonce", PyVal.str "42")] "K" "s" "e" 5
    (by decide)).1 (PyVal.str "42") (by decide)

/-- C8: on every request that reaches the network, the
`Content-Type: application/json` header is attached exactly when a body is
present — the dict, after any nonce merging, is non-None and non-empty. -/
theorem C8_content_type_iff_body (method path : String)
    (query : Option (List (String × String))) (body : Option Body)
    (pk sk env : String) (t : Nat) (s : SentRequest)
    (h : (request method path query body pk sk env t).result = .ok s) :
    (List.lookup "Content-Type" s.headers).isSome
      = bodyPresent (request method path query body pk sk env t).finalBody := by
  by_cases hpk : 0 < pk.length
  · have hfb : (request method path query body pk sk env t).finalBody
        = some (selectNonce body (get_nonce t)).2.1 := by simp [request, hpk]
    rw [hfb]
    simp only [request, hpk, if_true, reduceIte] at h
    split at h
    · exact absurd h (by simp)
    · rw [Except.ok.injEq] at h
      subst h
      by_cases hm : 0 < (selectNonce body (get_nonce t)).2.1.length <;>
        simp [hm, bodyPresent, List.lookup]
  · have hfb : (request method path query body pk sk env t).finalBody = body := by
      simp [request, hpk]
    rw [hfb]
    simp only [request, hpk, if_false, reduceIte] at h
    rw [Except.ok.injEq] at h
    subst h
    cases body with
    | none => simp [bodyPresent, List.lookup]
    | some b => by_cases hb : 0 < b.length <;> simp [hb, bodyPresent, List.lookup]

/-- Witness for C8 at an unauthenticated request with the one-entry body
`\x7b"a": "b"\x7d`, whose sent request carries the `Content-Type` header. -/
theorem C8_content_type_iff_body_witness :
    (List.lookup "Content-Type"
        (SentRequest.mk "GET" "e/p" (utf8Encode "\x7b\"a\": \"b\"\x7d")
          [("Content-Type", "application/json")]).headers).isSome
      = bodyPresent
          (request "GET" "/p" none (some [("a", PyVal.str "b")]) "" "" "e" 0).finalBody :=
  C8_content_type_iff_body "GET" "/p" none (some [("a", PyVal.str "b")]) "" "" "e" 0
    ⟨"GET", "e/p", utf8Encode "\x7b\"a\": \"b\"\x7d",
     [("Content-Type", "application/json")]⟩ (by decide)

/-- C10: on an authenticated request whose body lacks a `nonce` key, the
generated nonce is appended to the caller's dict — visible through
`finalBody` — and the lookup of every other key is unchanged; when the body
already has a `nonce` key the dict is not modified at all. -/
theorem C10_body_mutation_frame (method path : String)
    (query : Option (List (String × String))) (body : Body)
    (pk sk env : String) (t : Nat) (hpk : 0 < pk.length) :
    (List.lookup "nonce" body = none →
        (request method path query (some body) pk sk env t).finalBody
          = some (body ++ [("nonce", .str (get_nonce t))]) ∧
        ∀ k : String, k ≠ "nonce" →
          List.lookup k (body ++ [("nonce", .str (get_nonce t))])
            = List.lookup k body) ∧
    (∀ v, List.lookup "nonce" body = some v →
        (request method path query (some body) pk sk env t).finalBody
          = some body) := by
  constructor
  · intro hl
    exact ⟨by simp [request, selectNonce, hl, hpk],
           fun k hk => lookup_append_nonce k body _ hk⟩
  · intro v hl
    simp [request, selectNonce, hl, hpk]

/-- Witness for C10 at the one-entry body `\x7b"k": "v"\x7d` without a nonce:
the nonce is appended and the `"k"` entry is looked up unchanged. -/
theorem C10_body_mutation_frame_witness :
    (request "POST" "/p" none (some [("k", PyVal.str "v")]) "K" "s" "e" 5).finalBody
      = some ([("k", PyVal.str "v")] ++ [("nonce", PyVal.str (get_nonce 5))]) ∧
    List.lookup "k" ([("k", PyVal.str "v")] ++ [("nonce", PyVal.str (get_nonce 5))])
      = List.lookup "k" [("k", PyVal.str "v")] :=
  ⟨((C10_body_mutation_frame "POST" "/p" none [("k", PyVal.str "v")] "K" "s" "e" 5
      (by decide)).1 (by decide)).1,
   ((C10_body_mutation_frame "POST" "/p" none [("k", PyVal.str "v")] "K" "s" "e" 5
      (by decide)).1 (by decide)).2 "k" (by decide)⟩

end Crypton
